/-
Verification of the celestial-walker solar-system visualization core.

This file gives a shallow embedding, in Lean 4 over Mathlib, of the parts of
the code that the specified properties talk about:

  * `useCoordinateConversion` (composables/utils/useCoordinateConversion.ts):
    reference-plane conversion of orbital elements via spherical trigonometry.
    JavaScript `Math` double-precision functions are modelled by their exact
    real counterparts (`Real.cos`, `Real.arccos`, `Complex.arg` for `atan2`),
    so "within floating-point tolerance" becomes exact equality over `ℝ`.
  * `useOrbitFactory.createOrbit` / `createOrbitLine`
    (composables/factories/useOrbitFactory.ts) with the constants of
    configs/scaling.config.ts.
  * the scene-graph assembly of useSceneLoader.ts (`_createPlanet`,
    `_createSatellite` hierarchy wiring, and the registry calls of
    useVisualisation's `registerCelestialBody` / `registerOrbit`).
  * the per-frame simulation of useSimulationManager
    (`_updateOrbitPosition`, `initialize`, the orbit part of `update`).
  * the camera state machine of useCameraManager.ts (flag transitions of
    `focusOnBody`, `enterTacticalView`, `exitTacticalView`, `resetCamera`
    and the GSAP completion callbacks).
  * the outline decision of useInteractionManager.ts (`manageOutlineEffects`).

Scene-graph nodes carry only the data the properties mention (name, kind,
ids and numeric userData, position, rotation, children); geometry, materials
and GPU resources are elided except where a property is about them
(orbit-line material opacity).
-/
import Mathlib

/-! ### Angle helpers (three.js MathUtils and JS Math.atan2)

`MathUtils.degToRad d = d * (π / 180)`, `MathUtils.radToDeg r = r * (180 / π)`.
`Math.atan2 y x` is the argument of the complex number `x + y·i`, with range
`(-π, π]`; `Complex.arg` has exactly this convention (and `arg 0 = 0`, as in
JS `Math.atan2 0 0 = 0`). -/

noncomputable def degToRad (degrees : ℝ) : ℝ := degrees * (Real.pi / 180)

noncomputable def radToDeg (radians : ℝ) : ℝ := radians * (180 / Real.pi)

noncomputable def atan2 (y x : ℝ) : ℝ := Complex.arg ⟨x, y⟩

/-! ### useCoordinateConversion (src/composables/utils/useCoordinateConversion.ts) -/

/-- Interface `OrbitalElements`: inclination and longitude of ascending node,
in degrees, relative to the original reference plane. -/
structure OrbitalElements where
  orbitalInclination : ℝ
  longAscendingNode : ℝ

/-- Interface `ConvertedOrbitalElements`: the two elements re-expressed
relative to the new reference plane, in degrees. -/
structure ConvertedOrbitalElements where
  newOrbitalInclination : ℝ
  newLongAscendingNode : ℝ

/-- `useCoordinateConversion(elements, newPlaneInclination)`: converts orbital
elements from an original reference plane to a new reference plane tilted by
`newPlaneInclination` degrees, via the spherical law of cosines for the new
inclination and a two-argument arctangent for the new node longitude. -/
noncomputable def useCoordinateConversion (elements : OrbitalElements)
    (newPlaneInclination : ℝ) : ConvertedOrbitalElements :=
  let iOld := degToRad elements.orbitalInclination
  let longOld := degToRad elements.longAscendingNode
  let iNewPlane := degToRad newPlaneInclination
  let cosINew := Real.cos iOld * Real.cos iNewPlane +
    Real.sin iOld * Real.sin iNewPlane * Real.cos longOld
  let iNew := Real.arccos cosINew
  let y := Real.sin longOld * Real.sin iOld
  let x := Real.sin iNewPlane * Real.cos iOld -
    Real.cos iNewPlane * Real.sin iOld * Real.cos longOld
  let longNew := atan2 y x
  { newOrbitalInclination := radToDeg iNew
    newLongAscendingNode := radToDeg longNew }

/-! ### Scaling configuration (src/configs/scaling.config.ts) -/

/-- `kmPerAu = 149597870.7` kilometres per astronomical unit. -/
noncomputable def kmPerAu : ℝ := 149597870.7

/-- The `scaleFactors` record of scaling.config.ts. -/
structure ScaleFactors where
  celestialBodyKmPerUnit : ℝ
  orbitalDistanceAuPerUnit : ℝ
  localOrbitalDistanceKmPerUnit : ℝ

/-- `scaleFactors`: kilometres per scene unit for body radii, astronomical
units per scene unit for orbital distances. -/
noncomputable def scaleFactors : ScaleFactors :=
  { celestialBodyKmPerUnit := 69911 / 15
    orbitalDistanceAuPerUnit := 0.004
    localOrbitalDistanceKmPerUnit := 100000 }

/-! ### Scene-graph model (three.js Object3D slice)

An `Obj` models a three.js `Object3D` with the data the verified properties
mention: `name`, a `kind` tag distinguishing what the code constructed
(plain container `Object3D`, `Mesh`, orbit-pivot `Object3D`, orbital-plane
`Object3D`, `Line`, `PointLight`, debug helper host), the `userData` keys the
code reads and writes, local `position` and `rotation`, and the `children`
list (three.js `add` appends to it). -/

/-- Local position / Euler rotation vector. -/
structure Vec3 where
  x : ℝ
  y : ℝ
  z : ℝ

/-- What kind of three.js object a node is (which constructor produced it). -/
inductive NodeKind where
  | mesh
  | container
  | pivot
  | plane
  | line
  | light
  | helperHost
deriving DecidableEq, Repr

/-- The `userData` keys written by this codebase. Absent keys are `none`
(JavaScript `undefined`). `id` is set by the scene loader on meshes and orbit
lines; the orbit* keys are set by `createOrbit` on pivots. -/
structure UserData where
  id : Option String
  type : Option String
  orbitRadius : Option ℝ
  orbitSpeed : Option ℝ
  planetAstronomicalOrbitalDistanceKm : Option ℝ
  planetScaledOrbitalRadius : Option ℝ
  centralBodyScaledRadiusOffset : Option ℝ

/-- `userData` with no keys set (a fresh `Object3D`). -/
def UserData.empty : UserData :=
  { id := none, type := none, orbitRadius := none, orbitSpeed := none
    planetAstronomicalOrbitalDistanceKm := none
    planetScaledOrbitalRadius := none, centralBodyScaledRadiusOffset := none }

/-- A three.js `Object3D` slice: recursive tree of scene nodes. -/
inductive Obj where
  | node (name : String) (kind : NodeKind) (userData : UserData)
    (position : Vec3) (rotation : Vec3) (children : List Obj)

def Obj.name : Obj → String
  | .node n _ _ _ _ _ => n

def Obj.kind : Obj → NodeKind
  | .node _ k _ _ _ _ => k

def Obj.userData : Obj → UserData
  | .node _ _ u _ _ _ => u

def Obj.position : Obj → Vec3
  | .node _ _ _ p _ _ => p

def Obj.rotation : Obj → Vec3
  | .node _ _ _ _ r _ => r

def Obj.children : Obj → List Obj
  | .node _ _ _ _ _ c => c

/-- Replace a node's local position (three.js `object.position` assignment). -/
def Obj.withPosition : Obj → Vec3 → Obj
  | .node n k u _ r c, p => .node n k u p r c

/-- `parent.add(child)`: appends to the children list. -/
def Obj.add : Obj → Obj → Obj
  | .node n k u p r c, child => .node n k u p r (c ++ [child])

/-- The zero vector (a fresh `Object3D`'s position and rotation). -/
def Vec3.zero : Vec3 := ⟨0, 0, 0⟩

/-! ### useOrbitFactory (src/composables/factories/useOrbitFactory.ts) -/

/-- `createOrbit(centerToCenterDistanceKm, centralBodyScaledRadius, speed,
orbitName)`: an `Object3D` acting as the orbital pivot.  The real-world
distance is converted to scene units and the central body's scaled radius is
added; the result and the inputs are stored in `userData`. -/
noncomputable def createOrbit (centerToCenterDistanceKm : ℝ)
    (centralBodyScaledRadius : ℝ) (speed : ℝ) (orbitName : String) : Obj :=
  let planetOrbitalRadiusAu := centerToCenterDistanceKm / kmPerAu
  let planetScaledOrbitalRadius :=
    planetOrbitalRadiusAu / scaleFactors.orbitalDistanceAuPerUnit
  let finalEffectiveScaledRadius :=
    planetScaledOrbitalRadius + centralBodyScaledRadius
  .node orbitName .pivot
    { UserData.empty with
      orbitRadius := some finalEffectiveScaledRadius
      orbitSpeed := some speed
      planetAstronomicalOrbitalDistanceKm := some centerToCenterDistanceKm
      planetScaledOrbitalRadius := some planetScaledOrbitalRadius
      centralBodyScaledRadiusOffset := some centralBodyScaledRadius }
    Vec3.zero Vec3.zero []

/-- The `LineBasicMaterial` configuration `createOrbitLine` builds:
`color: colors.white, opacity: 0.2, transparent: true, linewidth: 2`.
Numeric literals are exact here, so the opacity is kept in `ℚ`. -/
structure LineBasicMaterial where
  color : String
  opacity : ℚ
  transparent : Bool
  linewidth : ℚ
deriving DecidableEq

/-- The visual orbit line: its circle points and its material. -/
structure OrbitLine where
  points : List (ℝ × ℝ × ℝ)
  material : LineBasicMaterial

/-- The points loop of `createOrbitLine`: `resolution + 1` evenly spaced
points around a circle of the given radius on the X-Z plane
(`i` runs from `0` to `resolution` inclusive). -/
noncomputable def orbitLinePoints (radius : ℝ) (resolution : ℕ) :
    List (ℝ × ℝ × ℝ) :=
  (List.range (resolution + 1)).map fun i =>
    let angle := ((i : ℝ) / (resolution : ℝ)) * (2 * Real.pi)
    (Real.cos angle * radius, 0, Real.sin angle * radius)

/-- `createOrbitLine(radius, resolution)`: a closed circular polyline with a
white, semi-transparent (`opacity: 0.2`) basic line material. -/
noncomputable def createOrbitLine (radius : ℝ) (resolution : ℕ) : OrbitLine :=
  { points := orbitLinePoints radius resolution
    material :=
      { color := "white"
        opacity := 0.2
        transparent := true
        linewidth := 2 } }

/-! ### Solar-system data model (src/types/solarSystem.types.ts)

String-encoded magnitudes (`semiMajorAxis: string` etc.) are modelled by
their `Number.parseFloat` values; presence-checked optional magnitudes
(`orbitalProps?.orbitalPeriod` truthiness) by `Option ℝ`.  The nested
collection of a planet's satellites is declared as `satellites?: ...` on the
`CelestialBody` interface (there is no `moons` property in the data model);
the loader only descends one level, so satellites carry no nested bodies. -/

/-- `CelestialTextures`: `main` is required, the rest optional. -/
structure CelestialTextures where
  main : String
  day : Option String
  night : Option String
  clouds : Option String
  rings : Option String
  atmosphere : Option String
  specular : Option String
  normal : Option String

/-- The physical properties the verified code reads, pre-parsed. -/
structure PhysicalProps where
  meanRadius : ℝ
  axialTilt : ℝ

/-- The orbital properties the verified code reads, pre-parsed.
`orbitalPeriod` is `Option` because the simulation manager guards on its
presence before storing it. -/
structure OrbitalProps where
  semiMajorAxis : ℝ
  orbitalInclination : ℝ
  longAscendingNode : ℝ
  orbitalPeriod : Option ℝ

/-- A satellite descriptor (`Satellite` in solarSystem.types.ts). -/
structure Satellite where
  id : String
  name : String
  description : String
  textures : CelestialTextures
  physicalProps : PhysicalProps
  orbitalProps : OrbitalProps

/-- A planet descriptor with its nested satellites (`Object.values` of the
keyed collection, in enumeration order). -/
structure Planet where
  id : String
  name : String
  description : String
  textures : CelestialTextures
  physicalProps : PhysicalProps
  orbitalProps : OrbitalProps
  satellites : List Satellite

/-- The sun descriptor (the loader reads its `main` texture and axial tilt). -/
structure Sun where
  id : String
  name : String
  description : String
  textures : CelestialTextures
  physicalProps : PhysicalProps

/-- `SolarSystemData`: the fetched document. -/
structure SolarSystemData where
  sun : Sun
  planets : List Planet

/-! ### useSimulationManager (simulation part of useInteractionManager.ts) -/

/-- `_updateOrbitPosition(pivot, time, orbitalPeriod)`: takes the pivot's
first child (the node carrying the body), computes
`angle = time * (2π / orbitalPeriod)` and sets that child's position to
`(cos(angle)·r, y unchanged, sin(angle)·r)` where `r` is the pivot's
`userData.orbitRadius`.  A pivot without children is left unchanged.
(The code only ever calls this on pivots built by `createOrbit`, which always
carry `orbitRadius`; a missing key is read as `0` here.) -/
noncomputable def _updateOrbitPosition (pivot : Obj) (time : ℝ)
    (orbitalPeriod : ℝ) : Obj :=
  match pivot with
  | .node n k u p r children =>
    match children with
    | [] => .node n k u p r []
    | bodyToOrbit :: rest =>
      let angularSpeed := 2 * Real.pi / orbitalPeriod
      let angle := time * angularSpeed
      let semiMajorAxis := u.orbitRadius.getD 0
      let moved := bodyToOrbit.withPosition
        ⟨Real.cos angle * semiMajorAxis,
          bodyToOrbit.position.y,
          Real.sin angle * semiMajorAxis⟩
      .node n k u p r (moved :: rest)

/-- `useSimulationManager.initialize`: populates the orbital-data map with
`parseFloat(orbitalPeriod)` for each planet, keyed by body id.  The source
then iterates `Object.values(planetData.moons || ...)`, but the
`CelestialBody` interface declares no `moons` property (the nested bodies
live under `satellites`), so that access yields `undefined` and the inner
loop contributes nothing. -/
def initializeOrbitalDataMap (data : SolarSystemData) : List (String × ℝ) :=
  data.planets.foldl
    (fun acc planetData =>
      match planetData.orbitalProps.orbitalPeriod with
      | some period => acc ++ [(planetData.id, period)]
      | none => acc)
    []

/-- The slice of `OrbitState` (solarSystem.types.ts) the simulation reads:
orbit id, owning body id, and the pivot it mutates. -/
structure OrbitRec where
  id : String
  name : String
  bodyId : String
  pivot : Obj

/-- The orbit half of `useSimulationManager.update`: for every registered
orbit, look up its body id in the orbital-data map and, only when an entry is
found, advance the pivot via `_updateOrbitPosition`. -/
noncomputable def simUpdateOrbits (orbitalDataMap : List (String × ℝ))
    (orbits : List OrbitRec) (simulatedTime : ℝ) : List OrbitRec :=
  orbits.map fun orbit =>
    match orbitalDataMap.lookup orbit.bodyId with
    | some orbitalPeriod =>
      { orbit with
        pivot := _updateOrbitPosition orbit.pivot simulatedTime orbitalPeriod }
    | none => orbit

/-! ### Scene-graph assembly (src/composables/features/useSceneLoader.ts)

`_createPlanet` steps 2-5 and `_createSatellite` steps 1-5 build the orbit
hierarchy.  JavaScript mutates the shared pivot object by reference
(`registerOrbit` later appends a helper host to it); here each builder
returns the assembled nodes as values. -/

/-- A mesh node as the loader tags it: `name`, `userData.id`,
`userData.type = 'celestial-body'`. -/
def taggedBodyMesh (id name : String) : Obj :=
  .node name .mesh { UserData.empty with id := some id, type := some "celestial-body" }
    Vec3.zero Vec3.zero []

/-- `_createPlanet` steps 2-5 and 7: the orbital plane rotated by the
converted node longitude, the orbit pivot rotated by the converted
inclination, the `"<name> System"` container holding the planet mesh
(added first) and, after it, one orbital plane per satellite — step 7
passes `planetSystem` as the parent for the satellites, and each
`_createSatellite` call ends with `parentSystem.add(orbitalPlane)`; JS
mutates the shared container by reference, so here the fully assembled
container value is built directly — and the orbit line as the system's
sibling.  `satelliteOrbitalPlanes` is the list of the satellites' orbital
planes in creation order (empty for a planet without satellites).
Returns (orbitalPlane, orbit pivot, assembled system). -/
noncomputable def buildPlanetOrbitAssembly (planetData : Planet)
    (convertedInclination convertedLongAscendingNode : ℝ)
    (sunRadius : ℝ) (planetMesh : Obj)
    (satelliteOrbitalPlanes : List Obj) : Obj × Obj × Obj :=
  let orbit0 := createOrbit planetData.orbitalProps.semiMajorAxis sunRadius 1
    (planetData.name ++ " Orbit")
  let orbit1 := match orbit0 with
    | .node n k u p _ c =>
      Obj.node n k u p ⟨degToRad convertedInclination, 0, 0⟩ c
  let orbitLineObj : Obj :=
    .node (planetData.name ++ " Orbit Line") .line
      { UserData.empty with id := some (planetData.id ++ "_orbit") }
      Vec3.zero Vec3.zero []
  let planetSystem : Obj :=
    satelliteOrbitalPlanes.foldl Obj.add
      ((Obj.node (planetData.name ++ " System") .container UserData.empty
        Vec3.zero Vec3.zero []).add planetMesh)
  let orbit2 := (orbit1.add planetSystem).add orbitLineObj
  let orbitalPlane : Obj :=
    ((Obj.node (planetData.name ++ " Orbital Plane") .plane UserData.empty
      Vec3.zero ⟨0, degToRad convertedLongAscendingNode, 0⟩ []).add orbit2)
  (orbitalPlane, orbit2, planetSystem)

/-- `_createSatellite` steps 1-4: the satellite's orbital plane and pivot.
The satellite mesh is added to the pivot directly — there is no system
container at this level — followed by the orbit line.
Returns (orbitalPlane, orbit pivot). -/
noncomputable def buildSatelliteOrbitAssembly (satelliteData : Satellite)
    (parentRadius : ℝ) (satelliteMesh : Obj) : Obj × Obj :=
  let orbitPivot0 := createOrbit satelliteData.orbitalProps.semiMajorAxis
    parentRadius 1 (satelliteData.name ++ " Orbit")
  let orbitPivot1 := match orbitPivot0 with
    | .node n k u p _ c =>
      Obj.node n k u p
        ⟨degToRad satelliteData.orbitalProps.orbitalInclination, 0, 0⟩ c
  let orbitLineObj : Obj :=
    .node (satelliteData.name ++ " Orbit Line") .line
      { UserData.empty with id := some (satelliteData.id ++ "_orbit") }
      Vec3.zero Vec3.zero []
  let orbitPivot2 := (orbitPivot1.add satelliteMesh).add orbitLineObj
  let orbitalPlane : Obj :=
    ((Obj.node (satelliteData.name ++ " Orbital Plane") .plane UserData.empty
      Vec3.zero
      ⟨0, degToRad satelliteData.orbitalProps.longAscendingNode, 0⟩ []).add
      orbitPivot2)
  (orbitalPlane, orbitPivot2)

/-- `registerOrbit` (useVisualisation) side effect on the pivot: an
`orbitalHelperHost` rotated by the orbit's inclination is `add`ed to the
pivot (appended after its existing children). -/
noncomputable def registerOrbitAddHelperHost (pivot : Obj) (inclinationDeg : ℝ) : Obj :=
  pivot.add (.node "" .helperHost UserData.empty Vec3.zero
    ⟨degToRad inclinationDeg, 0, 0⟩ [])

/-! ### Assembly control flow and failure propagation
(useSceneLoader.load / _createSolarSystem / _createPlanet / _createSatellite
together with useCelestialBodyFactory's texture loading)

Texture loading is the only failure source here.  A `TexEnv` says whether a
texture URL loads; `loadTexture` rejects (Except.error) on failure.  The
factory functions await texture loads sequentially, so the first failure
rejects the whole body-creation promise.  The registries accumulate by
module-level mutation in the source, so a thrown rejection leaves all
registrations made so far in place: every step threads the registry state
out even on error.  The geometric payload is elided at this level (it is
modelled by the assembly builders above); registries keep (id, name) for
bodies and (orbit id, owning body id) for orbits. -/

/-- Which texture paths load successfully. -/
def TexEnv := String → Bool

/-- `loadTexture(path)`: resolves, or rejects with the failing path. -/
def loadTexture (env : TexEnv) (path : String) : Except String Unit :=
  if env path then .ok () else .error path

/-- Awaits a texture only when the descriptor carries one
(`if (body.textures.X) ... await loadTexture(...)`). -/
def loadOptionalTexture (env : TexEnv) (tex : Option String) :
    Except String Unit :=
  match tex with
  | some path => loadTexture env path
  | none => .ok ()

/-- `createCelestialBody(body)`: sequentially awaits the main, normal,
specular and night textures that are present (the required `main` is guarded
by string truthiness), then resolves with the mesh (represented by its
name).  The first texture failure rejects the promise. -/
def createCelestialBody (env : TexEnv) (name : String)
    (textures : CelestialTextures) : Except String String := do
  if textures.main.isEmpty then pure () else loadTexture env textures.main
  loadOptionalTexture env textures.normal
  loadOptionalTexture env textures.specular
  loadOptionalTexture env textures.night
  pure name

/-- `createSun(sunData)`: awaits the main texture unconditionally. -/
def createSunMesh (env : TexEnv) (sunData : Sun) : Except String String := do
  loadTexture env sunData.textures.main
  pure sunData.name

/-- JavaScript `String.prototype.toLowerCase` for the ASCII names this data
uses (character-wise lower-casing). -/
def toLowerCase (s : String) : String :=
  String.mk (s.data.map Char.toLower)

/-- `createPlanet(planetData)`: the generic body, plus Earth's cloud texture
when present. -/
def createPlanetMesh (env : TexEnv) (planetData : Planet) :
    Except String String := do
  let m ← createCelestialBody env planetData.name planetData.textures
  if toLowerCase planetData.name = "earth" then
    loadOptionalTexture env planetData.textures.clouds
  else
    pure ()
  pure m

/-- `createSatellite(satelliteData)`: the generic body. -/
def createSatelliteMesh (env : TexEnv) (satelliteData : Satellite) :
    Except String String :=
  createCelestialBody env satelliteData.name satelliteData.textures

/-- The shared registries (visualisationState): registered bodies as
(id, name) and registered orbits as (orbit id, owning body id). -/
structure Registries where
  celestialBodies : List (String × String)
  orbits : List (String × String)
deriving DecidableEq

/-- The empty registries. -/
def Registries.empty : Registries := ⟨[], []⟩

/-- `registerCelestialBody(id, name, ...)`: pushes unless the id is already
registered. -/
def registerCelestialBody (regs : Registries) (id name : String) :
    Registries :=
  if (regs.celestialBodies.map Prod.fst).contains id then regs
  else { regs with celestialBodies := regs.celestialBodies ++ [(id, name)] }

/-- `registerOrbit(id, name, bodyId, ...)`: pushes unless the orbit id is
already registered. -/
def registerOrbit (regs : Registries) (id bodyId : String) : Registries :=
  if (regs.orbits.map Prod.fst).contains id then regs
  else { regs with orbits := regs.orbits ++ [(id, bodyId)] }

/-- `_createSatellite`: awaits the satellite mesh (propagating its
rejection), registers the body, assembles the hierarchy, registers the
orbit. -/
def createSatelliteStep (env : TexEnv) (satelliteData : Satellite)
    (regs : Registries) : Registries × Except String Unit :=
  match createSatelliteMesh env satelliteData with
  | .error e => (regs, .error e)
  | .ok _ =>
    let regs := registerCelestialBody regs satelliteData.id satelliteData.name
    let regs := registerOrbit regs (satelliteData.id ++ "_orbit")
      satelliteData.id
    (regs, .ok ())

/-- The `for ... of` satellite loop in `_createPlanet`: sequential awaits,
first rejection aborts the remaining satellites and propagates. -/
def createSatellitesLoop (env : TexEnv) : List Satellite → Registries →
    Registries × Except String Unit
  | [], regs => (regs, .ok ())
  | satelliteData :: rest, regs =>
    match createSatelliteStep env satelliteData regs with
    | (regs2, .ok _) => createSatellitesLoop env rest regs2
    | (regs2, .error e) => (regs2, .error e)

/-- `_createPlanet`: awaits the planet mesh (propagating its rejection),
registers the body and its orbit, then creates the satellites. -/
def createPlanetStep (env : TexEnv) (planetData : Planet)
    (regs : Registries) : Registries × Except String Unit :=
  match createPlanetMesh env planetData with
  | .error e => (regs, .error e)
  | .ok _ =>
    let regs := registerCelestialBody regs planetData.id planetData.name
    let regs := registerOrbit regs (planetData.id ++ "_orbit") planetData.id
    createSatellitesLoop env planetData.satellites regs

/-- The `for ... of` planet loop in `_createSolarSystem`: sequential awaits,
first rejection aborts the remaining planets and propagates. -/
def createPlanetsLoop (env : TexEnv) : List Planet → Registries →
    Registries × Except String Unit
  | [], regs => (regs, .ok ())
  | planetData :: rest, regs =>
    match createPlanetStep env planetData regs with
    | (regs2, .ok _) => createPlanetsLoop env rest regs2
    | (regs2, .error e) => (regs2, .error e)

/-- `_createSolarSystem`: the sun first (its rejection propagates before any
planet), then every planet. -/
def _createSolarSystem (env : TexEnv) (data : SolarSystemData) :
    Registries × Except String Unit :=
  match createSunMesh env data.sun with
  | .error e => (Registries.empty, .error e)
  | .ok _ =>
    let regs := registerCelestialBody Registries.empty data.sun.id
      data.sun.name
    createPlanetsLoop env data.planets regs

/-- `load(scene)`: runs `_createSolarSystem` inside try/catch — an error is
logged (returned here) and the registries keep whatever was registered
before the failure. -/
def load (env : TexEnv) (data : SolarSystemData) :
    Registries × Option String :=
  match _createSolarSystem env data with
  | (regs, .ok _) => (regs, none)
  | (regs, .error e) => (regs, some e)

/-! ### Camera manager state machine
(src/composables/features/useCameraManager.ts)

The flag-level state: the reactive `isCameraFollowing` and
`isTacticalViewActive`, whether a focus tween is in flight
(`focusAnimation`), which tactical tween is in flight (`tacticalAnimation`
with its onComplete variant), and the `preTacticalCameraState.wasFollowing`
snapshot.  Events are the public calls plus GSAP onComplete callbacks; a
completion event of a tween that is not in flight (it was killed) is a
no-op. -/

/-- Which tactical tween is in flight (enter vs exit have different
completion callbacks). -/
inductive TacticalTween where
  | entering
  | exiting
deriving DecidableEq, Repr

/-- The camera manager's flag state. -/
structure CameraState where
  isCameraFollowing : Bool
  isTacticalViewActive : Bool
  focusAnimation : Bool
  tacticalAnimation : Option TacticalTween
  preTacticalWasFollowing : Bool
deriving DecidableEq, Repr

/-- The initial state: no flags set, no tween in flight. -/
def CameraState.initial : CameraState :=
  { isCameraFollowing := false, isTacticalViewActive := false
    focusAnimation := false, tacticalAnimation := none
    preTacticalWasFollowing := false }

/-- The camera events: public entry points and tween-completion callbacks. -/
inductive CameraEvent where
  | focusOnBody
  | focusAnimationComplete
  | enterTacticalView
  | enterTacticalComplete
  | exitTacticalView
  | exitTacticalComplete
  | resetCamera
deriving DecidableEq, Repr

/-- One step of the camera manager, following the source:
`focusOnBody` kills both tweens, forces both flags false, starts a focus
tween; its onComplete sets `isCameraFollowing := true`.
`enterTacticalView` kills both tweens, snapshots `wasFollowing`, clears
following, starts the entering tween; its onComplete sets the tactical flag.
`exitTacticalView` kills only the tactical tween and starts the exiting
tween; its onComplete clears the tactical flag and restores following when
the snapshot had it.  `resetCamera` kills both tweens and clears both
flags.  Completion events fire only if their tween is still in flight. -/
def cameraStep (e : CameraEvent) (s : CameraState) : CameraState :=
  match e with
  | .focusOnBody =>
    { s with
      focusAnimation := true
      tacticalAnimation := none
      isCameraFollowing := false
      isTacticalViewActive := false }
  | .focusAnimationComplete =>
    if s.focusAnimation then
      { s with isCameraFollowing := true, focusAnimation := false }
    else s
  | .enterTacticalView =>
    { s with
      focusAnimation := false
      preTacticalWasFollowing := s.isCameraFollowing
      isCameraFollowing := false
      tacticalAnimation := some .entering }
  | .enterTacticalComplete =>
    if s.tacticalAnimation = some .entering then
      { s with isTacticalViewActive := true, tacticalAnimation := none }
    else s
  | .exitTacticalView =>
    { s with tacticalAnimation := some .exiting }
  | .exitTacticalComplete =>
    if s.tacticalAnimation = some .exiting then
      { s with
        isTacticalViewActive := false
        isCameraFollowing := s.preTacticalWasFollowing || s.isCameraFollowing
        tacticalAnimation := none }
    else s
  | .resetCamera =>
    { s with
      focusAnimation := false
      tacticalAnimation := none
      isCameraFollowing := false
      isTacticalViewActive := false }

/-- Run a sequence of camera events from a state. -/
def cameraRun (events : List CameraEvent) (s : CameraState) : CameraState :=
  events.foldl (fun st e => cameraStep e st) s

/-! ### Outline decision
(manageOutlineEffects in src/composables/features/useInteractionManager.ts) -/

/-- The slice of `CelestialBodyState` the outline watch reads: the body id
and its mesh's name (the render target pushed into `outlinedObjects`). -/
structure BodyStateLite where
  id : String
  meshName : String
deriving DecidableEq

/-- `SELECT_COLOR` (springGreen) of effectsState. -/
def SELECT_COLOR : String := "#00ff00"

/-- `HOVER_COLOR` (white) of effectsState. -/
def HOVER_COLOR : String := "#ffffff"

/-- The decision the watch callback computes from (hovered, selected,
isFocusMode): which mesh names to outline and which outline color to use
(the color keeps its previous value when no branch assigns it).  When the
camera is following, no outlines are shown.  Otherwise a selected body takes
priority; with no selection a hovered body is outlined.  (The associated
orbit-line restyling is a side effect on materials, elided here.) -/
def manageOutlineEffectsDecision (newHovered newSelected : Option BodyStateLite)
    (isFocusMode : Bool) (prevColor : String) : List String × String :=
  if isFocusMode then ([], prevColor)
  else
    match newSelected with
    | some sel => ([sel.meshName], SELECT_COLOR)
    | none =>
      match newHovered with
      | some hov => ([hov.meshName], HOVER_COLOR)
      | none => ([], prevColor)

/-! ### Concrete fixtures for counterexamples and witnesses -/

/-- Textures fixture: only a main texture. -/
def texturesOnlyMain (path : String) : CelestialTextures :=
  { main := path, day := none, night := none, clouds := none, rings := none
    atmosphere := none, specular := none, normal := none }

/-- A sun fixture. -/
def sunFixture : Sun :=
  { id := "sun", name := "Sun", description := ""
    textures := texturesOnlyMain "sun.jpg"
    physicalProps := { meanRadius := 695700, axialTilt := 7.25 } }

/-- A moon (satellite) fixture with an orbital period of 27.3 days. -/
def moonFixture : Satellite :=
  { id := "moon", name := "Moon", description := ""
    textures := texturesOnlyMain "moon.jpg"
    physicalProps := { meanRadius := 1737.4, axialTilt := 6.68 }
    orbitalProps :=
      { semiMajorAxis := 384400, orbitalInclination := 5.145
        longAscendingNode := 125.08, orbitalPeriod := some 27.3 } }

/-- An earth fixture carrying the moon, orbital period 365.25 days. -/
def earthFixture : Planet :=
  { id := "earth", name := "Earth", description := ""
    textures := texturesOnlyMain "earth.jpg"
    physicalProps := { meanRadius := 6371, axialTilt := 23.44 }
    orbitalProps :=
      { semiMajorAxis := 149598023, orbitalInclination := 1.57869
        longAscendingNode := 174.9, orbitalPeriod := some 365.25 }
    satellites := [moonFixture] }

/-- A mars fixture with no satellites. -/
def marsFixture : Planet :=
  { id := "mars", name := "Mars", description := ""
    textures := texturesOnlyMain "mars.jpg"
    physicalProps := { meanRadius := 3389.5, axialTilt := 25.19 }
    orbitalProps :=
      { semiMajorAxis := 227939366, orbitalInclination := 1.85
        longAscendingNode := 49.57854, orbitalPeriod := some 686.98 }
    satellites := [] }

/-- A sun + earth(+moon) + mars dataset. -/
def solarSystemFixture : SolarSystemData :=
  { sun := sunFixture, planets := [earthFixture, marsFixture] }

/-- A texture environment in which every texture loads. -/
def texEnvAllOk : TexEnv := fun _ => true

/-- A texture environment in which earth's main texture fails to load. -/
def texEnvEarthBroken : TexEnv := fun path => !(path == "earth.jpg")

/-- The moon's registered orbit record with its assembled pivot, as the
scene loader registers it (pivot children: satellite mesh, orbit line,
helper host). -/
noncomputable def moonOrbitRec : OrbitRec :=
  let assembled := buildSatelliteOrbitAssembly moonFixture 1.3
    (taggedBodyMesh "moon" "Moon")
  let pivot := registerOrbitAddHelperHost assembled.2
    moonFixture.orbitalProps.orbitalInclination
  { id := "moon_orbit", name := "Moon Orbit", bodyId := "moon", pivot := pivot }

/-- The earth's registered orbit record with its assembled pivot (the
moon's orbital plane is added into earth's system container by step 7). -/
noncomputable def earthOrbitRec : OrbitRec :=
  let moonPlane := (buildSatelliteOrbitAssembly moonFixture 1.3
    (taggedBodyMesh "moon" "Moon")).1
  let assembled := buildPlanetOrbitAssembly earthFixture 7.155 348.6 149.2
    (taggedBodyMesh "earth" "Earth") [moonPlane]
  let pivot := registerOrbitAddHelperHost assembled.2.1 7.155
  { id := "earth_orbit", name := "Earth Orbit", bodyId := "earth"
    pivot := pivot }

/-- The round-trip composition the round-trip property quantifies over:
convert with `tilt1`, then convert the result with `tilt2`. -/
noncomputable def roundTripConverted (elements : OrbitalElements)
    (tilt1 tilt2 : ℝ) : ConvertedOrbitalElements :=
  let first := useCoordinateConversion elements tilt1
  useCoordinateConversion
    ⟨first.newOrbitalInclination, first.newLongAscendingNode⟩ tilt2

/-- Registry consistency: every registered orbit's owning body id is a
registered body id. -/
def regsConsistent (regs : Registries) : Prop :=
  ∀ pr ∈ regs.orbits, pr.2 ∈ regs.celestialBodies.map Prod.fst

/-! ### Theorems -/

theorem degToRad_radToDeg (x : ℝ) : degToRad (radToDeg x) = x := by
  have hpi := Real.pi_ne_zero
  unfold degToRad radToDeg
  field_simp

theorem radToDeg_degToRad (x : ℝ) : radToDeg (degToRad x) = x := by
  have hpi := Real.pi_ne_zero
  unfold degToRad radToDeg
  field_simp

theorem radToDeg_nonneg {x : ℝ} (h : 0 ≤ x) : 0 ≤ radToDeg x := by
  have h180 : (0:ℝ) < 180 / Real.pi := by positivity
  exact mul_nonneg h h180.le

theorem radToDeg_le_180 {x : ℝ} (h : x ≤ Real.pi) : radToDeg x ≤ 180 := by
  have h180 : (0:ℝ) < 180 / Real.pi := by positivity
  have := mul_le_mul_of_nonneg_right h h180.le
  calc radToDeg x ≤ Real.pi * (180 / Real.pi) := this
    _ = 180 := by field_simp

theorem neg_180_lt_radToDeg {x : ℝ} (h : -Real.pi < x) : -180 < radToDeg x := by
  have h180 : (0:ℝ) < 180 / Real.pi := by positivity
  have := mul_lt_mul_of_pos_right h h180
  have hval : -Real.pi * (180 / Real.pi) = -180 := by
    field_simp
    ring
  calc (-180:ℝ) = -Real.pi * (180 / Real.pi) := hval.symm
    _ < radToDeg x := this

/-! #### C7: scaled orbit radius -/

/-- C7: for every positive semi-major-axis distance in kilometres and every
non-negative central-body scaled radius `r`, the orbit radius stored by
`createOrbit` equals `(semiMajorAxisKm / kmPerAu) / orbitalDistanceAuPerUnit
+ r` and is strictly greater than `r` alone. -/
theorem createOrbit_radius_formula_and_strict
    (distanceKm r speed : ℝ) (orbitName : String)
    (hd : 0 < distanceKm) (hr : 0 ≤ r) :
    (createOrbit distanceKm r speed orbitName).userData.orbitRadius =
      some (distanceKm / kmPerAu / scaleFactors.orbitalDistanceAuPerUnit + r) ∧
    r < distanceKm / kmPerAu / scaleFactors.orbitalDistanceAuPerUnit + r := by
  constructor
  · rfl
  · have hkm : (0:ℝ) < kmPerAu := by norm_num [kmPerAu]
    have hsf : (0:ℝ) < scaleFactors.orbitalDistanceAuPerUnit := by
      norm_num [scaleFactors]
    have hpos : 0 < distanceKm / kmPerAu / scaleFactors.orbitalDistanceAuPerUnit :=
      div_pos (div_pos hd hkm) hsf
    linarith

/-- Witness for C7 at a concrete input (one million kilometres, central
radius 5). -/
theorem createOrbit_radius_witness :
    (0:ℝ) < 1000000 ∧ (0:ℝ) ≤ 5 ∧
    ((createOrbit 1000000 5 1 "w").userData.orbitRadius =
      some ((1000000:ℝ) / kmPerAu / scaleFactors.orbitalDistanceAuPerUnit + 5) ∧
      (5:ℝ) < 1000000 / kmPerAu / scaleFactors.orbitalDistanceAuPerUnit + 5) :=
  ⟨by norm_num, by norm_num,
    createOrbit_radius_formula_and_strict 1000000 5 1 "w"
      (by norm_num) (by norm_num)⟩

/-! #### C9: orbit-line opacity -/

/-- C9: every visual orbit line created by `createOrbitLine` has material
opacity 0.2, not the documented 0.5 (PRD.md: "Simple lines with 0.5
opacity"). -/
theorem createOrbitLine_opacity (radius : ℝ) (resolution : ℕ) :
    (createOrbitLine radius resolution).material.opacity = 0.2 ∧
    (createOrbitLine radius resolution).material.opacity ≠ 0.5 := by
  constructor
  · rfl
  · intro h
    have : (0.2 : ℚ) = 0.5 := h
    norm_num at this

/-! #### C8: orbital periodicity -/

/-- C8: the body position computed by the per-frame orbit update is
identical at simulated times `t` and `t + P` for an orbit of period `P`
(the whole updated pivot is equal; only the first child's position is
written, with `angle = time * (2π / P)`). -/
theorem updateOrbitPosition_periodic (pivot : Obj) (t P : ℝ) :
    _updateOrbitPosition pivot (t + P) P = _updateOrbitPosition pivot t P := by
  by_cases hP : P = 0
  · subst hP
    rw [add_zero]
  · cases pivot with
    | node n k u p r children =>
      cases children with
      | nil => rfl
      | cons c rest =>
        simp only [_updateOrbitPosition]
        have hangle : (t + P) * (2 * Real.pi / P) =
            t * (2 * Real.pi / P) + 2 * Real.pi := by
          field_simp
          ring
        rw [hangle, Real.cos_add_two_pi, Real.sin_add_two_pi]

/-! #### C4: outline decision under selection -/

/-- C4 counterexample: with a selected body and the camera-following flag
set, the outline decision outlines nothing — not the selected body's render
target — so the claim fails as stated (it omits the following condition). -/
theorem outline_selected_while_following_cex :
    (manageOutlineEffectsDecision (some ⟨"mars", "Mars"⟩)
      (some ⟨"earth", "Earth"⟩) true "#ffffff").1 ≠ ["Earth"] ∧
    (manageOutlineEffectsDecision (some ⟨"mars", "Mars"⟩)
      (some ⟨"earth", "Earth"⟩) true "#ffffff").1 = [] := by
  constructor
  · decide
  · rfl

/-- C4 amended: whenever the selected body is non-null and the
camera-following flag is false, the outline decision outlines exactly the
selected body's render target (with the selection color), regardless of the
hovered body's value. -/
theorem outline_selected_not_following
    (newHovered : Option BodyStateLite) (sel : BodyStateLite)
    (prevColor : String) :
    manageOutlineEffectsDecision newHovered (some sel) false prevColor =
      ([sel.meshName], SELECT_COLOR) := by
  cases newHovered <;> rfl

/-! #### C5: when the following flag becomes true -/

/-- C5 counterexample: the camera-following flag is also set to true by the
completion callback of a tactical-view exit (restoring the pre-tactical
snapshot), not only by a focus animation's completion callback. -/
theorem following_set_by_tactical_exit_cex :
    (cameraRun [.focusOnBody, .focusAnimationComplete, .enterTacticalView,
      .exitTacticalView] CameraState.initial).isCameraFollowing = false ∧
    (cameraStep .exitTacticalComplete
      (cameraRun [.focusOnBody, .focusAnimationComplete, .enterTacticalView,
        .exitTacticalView] CameraState.initial)).isCameraFollowing = true := by
  constructor
  · rfl
  · rfl

/-- C5 amended: the camera-following flag transitions from false to true
only at a focus animation's completion callback or at a tactical-view exit
completion whose pre-tactical snapshot recorded following; and it is never
true immediately after a `focusOnBody` call (which forces it false). -/
theorem following_transition_only_on_completion
    (s : CameraState) (e : CameraEvent)
    (h1 : s.isCameraFollowing = false)
    (h2 : (cameraStep e s).isCameraFollowing = true) :
    (e = .focusAnimationComplete ∨
      (e = .exitTacticalComplete ∧ s.preTacticalWasFollowing = true)) ∧
    (cameraStep .focusOnBody s).isCameraFollowing = false := by
  refine ⟨?_, by simp [cameraStep]⟩
  cases e with
  | focusOnBody => simp [cameraStep] at h2
  | focusAnimationComplete => exact Or.inl rfl
  | enterTacticalView => simp [cameraStep] at h2
  | enterTacticalComplete =>
    simp only [cameraStep] at h2
    split at h2
    · rw [h1] at h2
      exact absurd h2 (by simp)
    · rw [h1] at h2
      exact absurd h2 (by simp)
  | exitTacticalView =>
    simp only [cameraStep] at h2
    rw [h1] at h2
    exact absurd h2 (by simp)
  | exitTacticalComplete =>
    refine Or.inr ⟨rfl, ?_⟩
    simp only [cameraStep] at h2
    split at h2
    · rw [h1] at h2
      simpa using h2
    · rw [h1] at h2
      exact absurd h2 (by simp)
  | resetCamera => simp [cameraStep] at h2

/-- Witness for C5's amended theorem: a state with a focus tween in flight,
where the focus completion callback sets the flag. -/
theorem following_transition_witness :
    ({ isCameraFollowing := false, isTacticalViewActive := false
       focusAnimation := true, tacticalAnimation := none
       preTacticalWasFollowing := false } : CameraState).isCameraFollowing
        = false ∧
    (cameraStep .focusAnimationComplete
      { isCameraFollowing := false, isTacticalViewActive := false
        focusAnimation := true, tacticalAnimation := none
        preTacticalWasFollowing := false }).isCameraFollowing = true ∧
    ((CameraEvent.focusAnimationComplete = .focusAnimationComplete ∨
      (CameraEvent.focusAnimationComplete = .exitTacticalComplete ∧
        ({ isCameraFollowing := false, isTacticalViewActive := false
           focusAnimation := true, tacticalAnimation := none
           preTacticalWasFollowing := false } :
          CameraState).preTacticalWasFollowing = true)) ∧
      (cameraStep .focusOnBody
        { isCameraFollowing := false, isTacticalViewActive := false
          focusAnimation := true, tacticalAnimation := none
          preTacticalWasFollowing := false }).isCameraFollowing = false) :=
  ⟨rfl, rfl,
    following_transition_only_on_completion _ .focusAnimationComplete rfl rfl⟩

/-! #### C2: the simulation never advances satellite orbits -/

/-- C2: the orbital-data map populated by `useSimulationManager.initialize`
contains entries for planets only — the source iterates
`planetData.moons`, a property absent from the data model (satellites are
nested under `satellites`), so no satellite period is ever stored — and the
per-frame update therefore leaves a registered satellite orbit (here the
moon's) completely unadvanced at a nonzero simulated time, while the claim
requires every registered orbit to be advanced. -/
theorem simulation_skips_satellite_orbits :
    (initializeOrbitalDataMap solarSystemFixture).map Prod.fst =
      ["earth", "mars"] ∧
    (initializeOrbitalDataMap solarSystemFixture).lookup "moon" = none ∧
    moonFixture ∈ earthFixture.satellites ∧
    moonFixture.orbitalProps.orbitalPeriod = some 27.3 ∧
    simUpdateOrbits (initializeOrbitalDataMap solarSystemFixture)
      [moonOrbitRec] 37 = [moonOrbitRec] := by
  refine ⟨rfl, rfl, ?_, rfl, rfl⟩
  simp [earthFixture]

/-! #### C3: the orbit pivot's first child -/

/-- C3 counterexample: for a satellite orbit assembled by the Scene Loader
(the moon's registered orbit), the pivot's first child is the satellite's
mesh itself — not a "system" container node — so the claim fails as stated
for satellite orbits. -/
theorem satellite_pivot_first_child_cex :
    (moonOrbitRec.pivot.children.head?).map Obj.kind =
      some NodeKind.mesh ∧
    NodeKind.mesh ≠ NodeKind.container ∧
    (moonOrbitRec.pivot.children.head?).map Obj.name = some "Moon" := by
  refine ⟨rfl, by decide, rfl⟩

theorem foldl_add_name_kind_children (l : List Obj) (o : Obj) :
    (l.foldl Obj.add o).name = o.name ∧
    (l.foldl Obj.add o).kind = o.kind ∧
    (l.foldl Obj.add o).children = o.children ++ l := by
  induction l generalizing o with
  | nil => exact ⟨rfl, rfl, (List.append_nil _).symm⟩
  | cons x xs ih =>
    cases o with
    | node n k u p r c =>
      obtain ⟨h1, h2, h3⟩ := ih (Obj.node n k u p r (c ++ [x]))
      refine ⟨h1, h2, ?_⟩
      rw [List.foldl_cons,
        show Obj.add (Obj.node n k u p r c) x =
          Obj.node n k u p r (c ++ [x]) from rfl]
      rw [show (Obj.node n k u p r (c ++ [x])).children = c ++ [x] from rfl]
        at h3
      rw [h3]
      show c ++ [x] ++ xs = c ++ (x :: xs)
      simp

/-- C3 amended: for every planet orbit the pivot's first child (after
registration appends the helper host) is the `"<name> System"` container,
whose own first child is the planet's mesh, followed by the orbital planes
of the planet's satellites (step 7 adds them into the container as siblings
of the mesh); for every satellite orbit the pivot's first child is the
satellite mesh itself.  In both cases the pivot's first child is the node
carrying the body the simulation moves, and the per-frame orbit update
rewrites only that first child's position — name, kind, userData and
children of the first child, and all other children, are preserved. -/
theorem orbit_pivot_first_child_amended :
    (∀ (planetData : Planet) (ci cl sunRadius incl : ℝ) (planetMesh : Obj)
        (satelliteOrbitalPlanes : List Obj),
      (registerOrbitAddHelperHost
          (buildPlanetOrbitAssembly planetData ci cl sunRadius planetMesh
            satelliteOrbitalPlanes).2.1 incl).children.head? =
        some (buildPlanetOrbitAssembly planetData ci cl sunRadius planetMesh
          satelliteOrbitalPlanes).2.2 ∧
      (buildPlanetOrbitAssembly planetData ci cl sunRadius planetMesh
        satelliteOrbitalPlanes).2.2.name = planetData.name ++ " System" ∧
      (buildPlanetOrbitAssembly planetData ci cl sunRadius planetMesh
        satelliteOrbitalPlanes).2.2.kind = NodeKind.container ∧
      (buildPlanetOrbitAssembly planetData ci cl sunRadius planetMesh
        satelliteOrbitalPlanes).2.2.children =
          planetMesh :: satelliteOrbitalPlanes) ∧
    (∀ (satelliteData : Satellite) (parentRadius incl : ℝ)
        (satelliteMesh : Obj),
      (registerOrbitAddHelperHost
          (buildSatelliteOrbitAssembly satelliteData parentRadius
            satelliteMesh).2 incl).children.head? = some satelliteMesh) ∧
    (∀ (pivot : Obj) (t P : ℝ),
      ((_updateOrbitPosition pivot t P).children.head?).map
          (fun c => (c.name, c.kind, c.userData, c.children)) =
        (pivot.children.head?).map
          (fun c => (c.name, c.kind, c.userData, c.children)) ∧
      (_updateOrbitPosition pivot t P).children.tail = pivot.children.tail) := by
  refine ⟨fun planetData ci cl sunRadius incl planetMesh
      satelliteOrbitalPlanes => ?_,
    fun satelliteData parentRadius incl satelliteMesh => rfl,
    fun pivot t P => ?_⟩
  · obtain ⟨h1, h2, h3⟩ := foldl_add_name_kind_children satelliteOrbitalPlanes
      ((Obj.node (planetData.name ++ " System") NodeKind.container
        UserData.empty Vec3.zero Vec3.zero []).add planetMesh)
    exact ⟨rfl, h1, h2, h3.trans (by simp [Obj.add, Obj.children])⟩
  · cases pivot with
    | node n k u p r children =>
      cases children with
      | nil => exact ⟨rfl, rfl⟩
      | cons c rest =>
        cases c with
        | node cn ck cu cp cr cc => exact ⟨rfl, rfl⟩

/-! #### C6: texture-failure propagation -/

/-- C6 counterexample: with earth's main texture failing (earth being the
first planet), `load` aborts the whole remaining assembly — the sibling
planet `mars` is never constructed or registered, contradicting the claim
that sibling bodies are still constructed. -/
theorem texture_failure_aborts_siblings_cex :
    (load texEnvEarthBroken solarSystemFixture).1.celestialBodies.map
      Prod.fst = ["sun"] ∧
    "mars" ∉ (load texEnvEarthBroken solarSystemFixture).1.celestialBodies.map
      Prod.fst ∧
    (load texEnvEarthBroken solarSystemFixture).2 = some "earth.jpg" := by
  refine ⟨rfl, by decide, rfl⟩

theorem registerCelestialBody_orbits (regs : Registries) (id name : String) :
    (registerCelestialBody regs id name).orbits = regs.orbits := by
  unfold registerCelestialBody
  split <;> rfl

theorem registerCelestialBody_bodies_mono {x : String} (regs : Registries)
    (id name : String) (h : x ∈ regs.celestialBodies.map Prod.fst) :
    x ∈ (registerCelestialBody regs id name).celestialBodies.map Prod.fst := by
  unfold registerCelestialBody
  split
  · exact h
  · simp only [List.map_append]
    exact List.mem_append_left _ h

theorem registerCelestialBody_bodies_self (regs : Registries)
    (id name : String) :
    id ∈ (registerCelestialBody regs id name).celestialBodies.map Prod.fst := by
  unfold registerCelestialBody
  split
  · next h => simpa using h
  · simp

theorem registerOrbit_bodies (regs : Registries) (id bodyId : String) :
    (registerOrbit regs id bodyId).celestialBodies = regs.celestialBodies := by
  unfold registerOrbit
  split <;> rfl

theorem regsConsistent_registerCelestialBody (regs : Registries)
    (id name : String) (h : regsConsistent regs) :
    regsConsistent (registerCelestialBody regs id name) := by
  intro pr hpr
  rw [registerCelestialBody_orbits] at hpr
  exact registerCelestialBody_bodies_mono regs id name (h pr hpr)

theorem regsConsistent_registerOrbit (regs : Registries) (id bodyId : String)
    (h : regsConsistent regs)
    (hb : bodyId ∈ regs.celestialBodies.map Prod.fst) :
    regsConsistent (registerOrbit regs id bodyId) := by
  intro pr hpr
  rw [registerOrbit_bodies]
  unfold registerOrbit at hpr
  split at hpr
  · exact h pr hpr
  · simp only at hpr
    rcases List.mem_append.mp hpr with hl | hr2
    · exact h pr hl
    · rcases List.mem_singleton.mp hr2 with rfl
      exact hb

theorem regsConsistent_createSatelliteStep (env : TexEnv)
    (satelliteData : Satellite) (regs : Registries)
    (h : regsConsistent regs) :
    regsConsistent (createSatelliteStep env satelliteData regs).1 := by
  unfold createSatelliteStep
  cases createSatelliteMesh env satelliteData with
  | error e => exact h
  | ok m =>
    exact regsConsistent_registerOrbit _ _ _
      (regsConsistent_registerCelestialBody _ _ _ h)
      (registerCelestialBody_bodies_self _ _ _)

theorem regsConsistent_createSatellitesLoop (env : TexEnv)
    (sats : List Satellite) (regs : Registries) (h : regsConsistent regs) :
    regsConsistent (createSatellitesLoop env sats regs).1 := by
  induction sats generalizing regs with
  | nil => exact h
  | cons satelliteData rest ih =>
    unfold createSatellitesLoop
    have hstep := regsConsistent_createSatelliteStep env satelliteData regs h
    cases hres : createSatelliteStep env satelliteData regs with
    | mk regs2 res =>
      rw [hres] at hstep
      cases res with
      | ok u => exact ih regs2 hstep
      | error e => exact hstep

theorem regsConsistent_createPlanetStep (env : TexEnv) (planetData : Planet)
    (regs : Registries) (h : regsConsistent regs) :
    regsConsistent (createPlanetStep env planetData regs).1 := by
  unfold createPlanetStep
  cases createPlanetMesh env planetData with
  | error e => exact h
  | ok m =>
    exact regsConsistent_createSatellitesLoop _ _ _
      (regsConsistent_registerOrbit _ _ _
        (regsConsistent_registerCelestialBody _ _ _ h)
        (registerCelestialBody_bodies_self _ _ _))

theorem regsConsistent_createPlanetsLoop (env : TexEnv)
    (planets : List Planet) (regs : Registries) (h : regsConsistent regs) :
    regsConsistent (createPlanetsLoop env planets regs).1 := by
  induction planets generalizing regs with
  | nil => exact h
  | cons planetData rest ih =>
    unfold createPlanetsLoop
    have hstep := regsConsistent_createPlanetStep env planetData regs h
    cases hres : createPlanetStep env planetData regs with
    | mk regs2 res =>
      rw [hres] at hstep
      cases res with
      | ok u => exact ih regs2 hstep
      | error e => exact hstep

/-- C6 amended: a texture-load failure rejects the body-creation promise
and the rejection propagates up through the whole assembly chain — the
planet loop stops at the first failing planet, skipping all later siblings
— while `load` leaves the shared registries consistent: every registered
orbit's owning body id is a registered body id. -/
theorem texture_failure_amended :
    (∀ (env : TexEnv) (data : SolarSystemData),
      regsConsistent (load env data).1) ∧
    (∀ (env : TexEnv) (planetData : Planet) (rest : List Planet)
        (regs regs2 : Registries) (e : String),
      createPlanetStep env planetData regs = (regs2, Except.error e) →
      createPlanetsLoop env (planetData :: rest) regs =
        (regs2, Except.error e)) := by
  constructor
  · intro env data
    unfold load _createSolarSystem
    cases createSunMesh env data.sun with
    | error e => intro pr hpr; exact absurd hpr (by simp [Registries.empty])
    | ok m =>
      have hbase : regsConsistent
          (registerCelestialBody Registries.empty data.sun.id data.sun.name) := by
        intro pr hpr
        rw [registerCelestialBody_orbits] at hpr
        exact absurd hpr (by simp [Registries.empty])
      have h := regsConsistent_createPlanetsLoop env data.planets _ hbase
      cases hres : createPlanetsLoop env data.planets
          (registerCelestialBody Registries.empty data.sun.id data.sun.name) with
      | mk regs2 res =>
        rw [hres] at h
        cases res with
        | ok u => exact h
        | error e => exact h
  · intro env planetData rest regs regs2 e h
    unfold createPlanetsLoop
    rw [h]

/-- Witness for C6's amended theorem: the consistency conclusion applied to
the earth orbit registered in a fully successful load, and the abort
conclusion applied to the broken-earth environment. -/
theorem texture_failure_amended_witness :
    ("earth_orbit", "earth") ∈ (load texEnvAllOk solarSystemFixture).1.orbits ∧
    "earth" ∈ (load texEnvAllOk
      solarSystemFixture).1.celestialBodies.map Prod.fst ∧
    createPlanetStep texEnvEarthBroken earthFixture
        (registerCelestialBody Registries.empty "sun" "Sun") =
      ((registerCelestialBody Registries.empty "sun" "Sun"),
        Except.error "earth.jpg") ∧
    createPlanetsLoop texEnvEarthBroken [earthFixture, marsFixture]
        (registerCelestialBody Registries.empty "sun" "Sun") =
      ((registerCelestialBody Registries.empty "sun" "Sun"),
        Except.error "earth.jpg") :=
  ⟨by decide, texture_failure_amended.1 texEnvAllOk solarSystemFixture
      ("earth_orbit", "earth") (by decide), rfl,
    texture_failure_amended.2 texEnvEarthBroken earthFixture [marsFixture]
      _ _ "earth.jpg" rfl⟩

/-! #### Component equations of the coordinate conversion -/

theorem useCoordinateConversion_incl (elements : OrbitalElements) (tilt : ℝ) :
    (useCoordinateConversion elements tilt).newOrbitalInclination =
      radToDeg (Real.arccos
        (Real.cos (degToRad elements.orbitalInclination) *
            Real.cos (degToRad tilt) +
          Real.sin (degToRad elements.orbitalInclination) *
            Real.sin (degToRad tilt) *
            Real.cos (degToRad elements.longAscendingNode))) := rfl

theorem useCoordinateConversion_long (elements : OrbitalElements) (tilt : ℝ) :
    (useCoordinateConversion elements tilt).newLongAscendingNode =
      radToDeg (Complex.arg
        ⟨Real.sin (degToRad tilt) *
            Real.cos (degToRad elements.orbitalInclination) -
          Real.cos (degToRad tilt) *
            Real.sin (degToRad elements.orbitalInclination) *
            Real.cos (degToRad elements.longAscendingNode),
          Real.sin (degToRad elements.longAscendingNode) *
            Real.sin (degToRad elements.orbitalInclination)⟩) := rfl

/-! #### C10: output ranges of the coordinate conversion -/

/-- C10: for all real inputs, `useCoordinateConversion` returns an
inclination in [0°, 180°] (range of arccos, scaled) and a longitude of
ascending node in (−180°, 180°] (range of atan2, scaled); in particular a
longitude can never be returned as a value in (180°, 360°). -/
theorem useCoordinateConversion_range (elements : OrbitalElements)
    (tilt : ℝ) :
    0 ≤ (useCoordinateConversion elements tilt).newOrbitalInclination ∧
    (useCoordinateConversion elements tilt).newOrbitalInclination ≤ 180 ∧
    -180 < (useCoordinateConversion elements tilt).newLongAscendingNode ∧
    (useCoordinateConversion elements tilt).newLongAscendingNode ≤ 180 := by
  rw [useCoordinateConversion_incl, useCoordinateConversion_long]
  exact ⟨radToDeg_nonneg (Real.arccos_nonneg _),
    radToDeg_le_180 (Real.arccos_le_pi _),
    neg_180_lt_radToDeg (Complex.neg_pi_lt_arg _),
    radToDeg_le_180 (Complex.arg_le_pi _)⟩

/-! #### C1: the coordinate-conversion round trip -/

/-- Equation for the converted inclination with the element fields given
explicitly. -/
theorem useCoordinateConversion_incl_mk (iDeg longDeg tilt : ℝ) :
    (useCoordinateConversion ⟨iDeg, longDeg⟩ tilt).newOrbitalInclination =
      radToDeg (Real.arccos
        (Real.cos (degToRad iDeg) * Real.cos (degToRad tilt) +
          Real.sin (degToRad iDeg) * Real.sin (degToRad tilt) *
            Real.cos (degToRad longDeg))) := rfl

/-- Equation for the converted node longitude with the element fields given
explicitly. -/
theorem useCoordinateConversion_long_mk (iDeg longDeg tilt : ℝ) :
    (useCoordinateConversion ⟨iDeg, longDeg⟩ tilt).newLongAscendingNode =
      radToDeg (Complex.arg
        ⟨Real.sin (degToRad tilt) * Real.cos (degToRad iDeg) -
          Real.cos (degToRad tilt) * Real.sin (degToRad iDeg) *
            Real.cos (degToRad longDeg),
          Real.sin (degToRad longDeg) * Real.sin (degToRad iDeg)⟩) := rfl

/-- The exact-arithmetic core of the round-trip analysis, in radians: for a
pole colatitude `a ∈ (0, π)`, node angle `b ∈ [0, 2π)` and any tilt `t`,
applying the conversion formulas twice with the same tilt recovers `a`
exactly and `b` up to the atan2 range (`b` or `b − 2π`), provided the first
application does not land on a pole. -/

theorem sphericalRoundTrip (a b t : ℝ) (ha0 : 0 < a) (ha1 : a < Real.pi)
    (hb0 : 0 ≤ b) (hb1 : b < 2 * Real.pi)
    (hne0 : Real.arccos (Real.cos a * Real.cos t +
      Real.sin a * Real.sin t * Real.cos b) ≠ 0)
    (hnepi : Real.arccos (Real.cos a * Real.cos t +
      Real.sin a * Real.sin t * Real.cos b) ≠ Real.pi) :
    Real.arccos
      (Real.cos (Real.arccos (Real.cos a * Real.cos t +
          Real.sin a * Real.sin t * Real.cos b)) * Real.cos t +
        Real.sin (Real.arccos (Real.cos a * Real.cos t +
          Real.sin a * Real.sin t * Real.cos b)) * Real.sin t *
        Real.cos (Complex.arg
          ⟨Real.sin t * Real.cos a - Real.cos t * Real.sin a * Real.cos b,
            Real.sin b * Real.sin a⟩)) = a ∧
    (Complex.arg
      ⟨Real.sin t * Real.cos (Real.arccos (Real.cos a * Real.cos t +
          Real.sin a * Real.sin t * Real.cos b)) -
        Real.cos t * Real.sin (Real.arccos (Real.cos a * Real.cos t +
          Real.sin a * Real.sin t * Real.cos b)) *
        Real.cos (Complex.arg
          ⟨Real.sin t * Real.cos a - Real.cos t * Real.sin a * Real.cos b,
            Real.sin b * Real.sin a⟩),
        Real.sin (Complex.arg
          ⟨Real.sin t * Real.cos a - Real.cos t * Real.sin a * Real.cos b,
            Real.sin b * Real.sin a⟩) *
        Real.sin (Real.arccos (Real.cos a * Real.cos t +
          Real.sin a * Real.sin t * Real.cos b))⟩ = b ∨
      Complex.arg
      ⟨Real.sin t * Real.cos (Real.arccos (Real.cos a * Real.cos t +
          Real.sin a * Real.sin t * Real.cos b)) -
        Real.cos t * Real.sin (Real.arccos (Real.cos a * Real.cos t +
          Real.sin a * Real.sin t * Real.cos b)) *
        Real.cos (Complex.arg
          ⟨Real.sin t * Real.cos a - Real.cos t * Real.sin a * Real.cos b,
            Real.sin b * Real.sin a⟩),
        Real.sin (Complex.arg
          ⟨Real.sin t * Real.cos a - Real.cos t * Real.sin a * Real.cos b,
            Real.sin b * Real.sin a⟩) *
        Real.sin (Real.arccos (Real.cos a * Real.cos t +
          Real.sin a * Real.sin t * Real.cos b))⟩ = b - 2 * Real.pi) := by
  have hpytha := Real.sin_sq_add_cos_sq a
  have hpythb := Real.sin_sq_add_cos_sq b
  have hpytht := Real.sin_sq_add_cos_sq t
  set c1 := Real.cos a * Real.cos t + Real.sin a * Real.sin t * Real.cos b
    with hc1
  set x1 := Real.sin t * Real.cos a - Real.cos t * Real.sin a * Real.cos b
    with hx1
  set y1 := Real.sin b * Real.sin a with hy1
  set z : ℂ := ⟨x1, y1⟩ with hz
  set A := Real.arccos c1 with hA
  set B := Complex.arg z with hB
  have key : x1 ^ 2 + y1 ^ 2 = 1 - c1 ^ 2 := by
    rw [hc1, hx1, hy1]
    linear_combination (Real.cos a ^ 2 + Real.sin a ^ 2 * Real.cos b ^ 2) *
        hpytht + Real.sin a ^ 2 * hpythb + hpytha
  have hc1sq : c1 ^ 2 ≤ 1 := by nlinarith [sq_nonneg x1, sq_nonneg y1]
  have hc1lo : -1 ≤ c1 := by nlinarith
  have hc1hi : c1 ≤ 1 := by nlinarith
  have hA0 : (0:ℝ) ≤ A := Real.arccos_nonneg _
  have hApi : A ≤ Real.pi := Real.arccos_le_pi _
  have hA0lt : 0 < A := lt_of_le_of_ne hA0 (Ne.symm hne0)
  have hApilt : A < Real.pi := lt_of_le_of_ne hApi hnepi
  have hsinApos : 0 < Real.sin A := Real.sin_pos_of_pos_of_lt_pi hA0lt hApilt
  have hcosA : Real.cos A = c1 := Real.cos_arccos hc1lo hc1hi
  have hsinAeq : Real.sin A = Real.sqrt (x1 ^ 2 + y1 ^ 2) := by
    rw [hA, Real.sin_arccos, ← key]
  have habs : Complex.abs z = Real.sqrt (x1 ^ 2 + y1 ^ 2) := by
    rw [hz, Complex.abs_apply, Complex.normSq_mk,
      show x1 * x1 + y1 * y1 = x1 ^ 2 + y1 ^ 2 by ring]
  have hsinAabs : Real.sin A = Complex.abs z := by rw [hsinAeq, habs]
  have habspos : 0 < Complex.abs z := hsinAabs ▸ hsinApos
  have hzne : z ≠ 0 := by
    intro h0
    rw [h0] at habspos
    simp at habspos
  have hcosB : Real.cos B = x1 / Complex.abs z := by
    rw [hB]
    have := Complex.cos_arg hzne
    simpa [hz] using this
  have hsinB : Real.sin B = y1 / Complex.abs z := by
    rw [hB]
    have := Complex.sin_arg z
    simpa [hz] using this
  have hcross : Real.sin A * Real.cos B = x1 := by
    rw [hcosB, hsinAabs]
    field_simp
  have hcross2 : Real.sin B * Real.sin A = y1 := by
    rw [hsinB, hsinAabs]
    field_simp
  have hc2 : Real.cos A * Real.cos t + Real.sin A * Real.sin t * Real.cos B =
      Real.cos a := by
    have : Real.sin A * Real.sin t * Real.cos B =
        Real.sin t * (Real.sin A * Real.cos B) := by ring
    rw [this, hcross, hcosA, hc1, hx1]
    linear_combination Real.cos a * hpytht
  have hx2 : Real.sin t * Real.cos A -
      Real.cos t * Real.sin A * Real.cos B = Real.sin a * Real.cos b := by
    have : Real.cos t * Real.sin A * Real.cos B =
        Real.cos t * (Real.sin A * Real.cos B) := by ring
    rw [this, hcross, hcosA, hc1, hx1]
    linear_combination (Real.sin a * Real.cos b) * hpytht
  constructor
  · rw [hc2]
    exact Real.arccos_cos ha0.le ha1.le
  · rw [hx2, hcross2, hy1]
    have hsa : 0 < Real.sin a := Real.sin_pos_of_pos_of_lt_pi ha0 ha1
    have hw : (⟨Real.sin a * Real.cos b, Real.sin b * Real.sin a⟩ : ℂ) =
        (Real.sin a : ℂ) * ⟨Real.cos b, Real.sin b⟩ := by
      rw [Complex.ext_iff]
      constructor
      · simp only [Complex.mul_re, Complex.ofReal_re, Complex.ofReal_im]
        ring
      · simp only [Complex.mul_im, Complex.ofReal_re, Complex.ofReal_im]
        ring
    rw [hw, Complex.arg_real_mul _ hsa]
    rcases le_or_lt b Real.pi with hble | hbgt
    · left
      rw [Complex.mk_eq_add_mul_I, Complex.ofReal_cos, Complex.ofReal_sin]
      exact Complex.arg_cos_add_sin_mul_I ⟨by linarith [Real.pi_pos], hble⟩
    · right
      rw [show Real.cos b = Real.cos (b - 2 * Real.pi) from
          (Real.cos_sub_two_pi b).symm,
        show Real.sin b = Real.sin (b - 2 * Real.pi) from
          (Real.sin_sub_two_pi b).symm,
        Complex.mk_eq_add_mul_I, Complex.ofReal_cos, Complex.ofReal_sin]
      exact Complex.arg_cos_add_sin_mul_I
        ⟨by linarith, by linarith [Real.pi_pos]⟩

/-- Evaluation: converting inclination 90°, node 0° by tilt 30° gives
inclination 60°, node 180°. -/
theorem conv_90_0_30 : useCoordinateConversion ⟨90, 0⟩ 30 = ⟨60, 180⟩ := by
  have f1 : (useCoordinateConversion ⟨90, 0⟩ 30).newOrbitalInclination = 60 := by
    rw [useCoordinateConversion_incl_mk,
      show degToRad 90 = Real.pi / 2 from by unfold degToRad; ring,
      show degToRad 30 = Real.pi / 6 from by unfold degToRad; ring,
      show degToRad 0 = 0 from by unfold degToRad; ring,
      Real.cos_pi_div_two, Real.sin_pi_div_two, Real.cos_pi_div_six,
      Real.sin_pi_div_six, Real.cos_zero,
      show (0:ℝ) * (Real.sqrt 3 / 2) + 1 * (1 / 2) * 1 = 1 / 2 from by ring,
      show Real.arccos (1 / 2 : ℝ) = Real.pi / 3 from by
        rw [← Real.cos_pi_div_three]
        exact Real.arccos_cos (by positivity) (by linarith [Real.pi_pos])]
    unfold radToDeg
    field_simp
    ring
  have f2 : (useCoordinateConversion ⟨90, 0⟩ 30).newLongAscendingNode = 180 := by
    rw [useCoordinateConversion_long_mk,
      show degToRad 90 = Real.pi / 2 from by unfold degToRad; ring,
      show degToRad 30 = Real.pi / 6 from by unfold degToRad; ring,
      show degToRad 0 = 0 from by unfold degToRad; ring,
      Real.cos_pi_div_two, Real.sin_pi_div_two, Real.cos_pi_div_six,
      Real.sin_pi_div_six, Real.cos_zero, Real.sin_zero,
      show (1:ℝ) / 2 * 0 - Real.sqrt 3 / 2 * 1 * 1 = -(Real.sqrt 3 / 2) from by
        ring,
      show (0:ℝ) * 1 = 0 from by ring,
      show Complex.arg ⟨-(Real.sqrt 3 / 2), 0⟩ = Real.pi from
        Complex.arg_eq_pi_iff.mpr
          ⟨by rw [neg_lt_zero]; positivity, rfl⟩]
    unfold radToDeg
    field_simp
  rw [show useCoordinateConversion ⟨90, 0⟩ 30 =
      ⟨(useCoordinateConversion ⟨90, 0⟩ 30).newOrbitalInclination,
        (useCoordinateConversion ⟨90, 0⟩ 30).newLongAscendingNode⟩ from rfl,
    f1, f2]

/-- Evaluation: converting inclination 60°, node 180° by tilt −30° gives
inclination 30° — not the 90° the round trip would need. -/
theorem conv_60_180_neg30_incl :
    (useCoordinateConversion ⟨60, 180⟩ (-30)).newOrbitalInclination = 30 := by
  rw [useCoordinateConversion_incl_mk,
    show degToRad 60 = Real.pi / 3 from by unfold degToRad; ring,
    show degToRad 180 = Real.pi from by unfold degToRad; ring,
    show degToRad (-30) = -(Real.pi / 6) from by unfold degToRad; ring,
    Real.cos_neg, Real.sin_neg, Real.cos_pi_div_three, Real.sin_pi_div_three,
    Real.cos_pi_div_six, Real.sin_pi_div_six, Real.cos_pi,
    show (1:ℝ) / 2 * (Real.sqrt 3 / 2) +
        Real.sqrt 3 / 2 * -(1 / 2) * -1 = Real.sqrt 3 / 2 from by ring,
    show Real.arccos (Real.sqrt 3 / 2) = Real.pi / 6 from by
      rw [← Real.cos_pi_div_six]
      exact Real.arccos_cos (by positivity) (by linarith [Real.pi_pos])]
  unfold radToDeg
  field_simp
  ring

/-- C1 counterexample: converting (inclination 90°, node 0°) with tilt 30°
and converting the result back with tilt −30° yields inclination 30°, not
the original 90° (an error of 60°, far beyond floating-point tolerance):
applying the function with the negated tilt is not the inverse. -/
theorem coordinate_roundtrip_negated_tilt_cex :
    (roundTripConverted ⟨90, 0⟩ 30 (-30)).newOrbitalInclination ≠ 90 := by
  rw [show roundTripConverted ⟨90, 0⟩ 30 (-30) =
      useCoordinateConversion
        ⟨(useCoordinateConversion ⟨90, 0⟩ 30).newOrbitalInclination,
          (useCoordinateConversion ⟨90, 0⟩ 30).newLongAscendingNode⟩ (-30)
      from rfl, conv_90_0_30]
  show (useCoordinateConversion ⟨60, 180⟩ (-30)).newOrbitalInclination ≠ 90
  rw [conv_60_180_neg30_incl]
  norm_num

/-- C1 amended: the conversion is an involution with the SAME tilt — for
every inclination in (0°, 180°), longitude of ascending node in [0°, 360°)
and any tilt `T`, applying `useCoordinateConversion` with tilt `T` and then
applying it again to the result with the same tilt `T` returns the original
inclination exactly and the original longitude up to the atan2 output range
(Ω itself when Ω ≤ 180°, else Ω − 360°), provided the intermediate
inclination is not degenerate (0° or 180°, the coincident-poles case the
module leaves open). -/
theorem useCoordinateConversion_involution (i Ω T : ℝ)
    (hi0 : 0 < i) (hi1 : i < 180) (hΩ0 : 0 ≤ Ω) (hΩ1 : Ω < 360)
    (hmid0 : (useCoordinateConversion ⟨i, Ω⟩ T).newOrbitalInclination ≠ 0)
    (hmid180 : (useCoordinateConversion ⟨i, Ω⟩ T).newOrbitalInclination ≠ 180) :
    (roundTripConverted ⟨i, Ω⟩ T T).newOrbitalInclination = i ∧
    ((roundTripConverted ⟨i, Ω⟩ T T).newLongAscendingNode = Ω ∨
      (roundTripConverted ⟨i, Ω⟩ T T).newLongAscendingNode = Ω - 360) := by
  have hπ := Real.pi_pos
  have hfrac : (0:ℝ) < Real.pi / 180 := by positivity
  have ha0 : 0 < degToRad i := by
    unfold degToRad
    exact mul_pos hi0 hfrac
  have ha1 : degToRad i < Real.pi := by
    unfold degToRad
    calc i * (Real.pi / 180) < 180 * (Real.pi / 180) :=
        mul_lt_mul_of_pos_right hi1 hfrac
      _ = Real.pi := by field_simp
  have hb0 : 0 ≤ degToRad Ω := by
    unfold degToRad
    exact mul_nonneg hΩ0 hfrac.le
  have hb1 : degToRad Ω < 2 * Real.pi := by
    unfold degToRad
    calc Ω * (Real.pi / 180) < 360 * (Real.pi / 180) :=
        mul_lt_mul_of_pos_right hΩ1 hfrac
      _ = 2 * Real.pi := by
        field_simp
        ring
  have hincl_eq := useCoordinateConversion_incl_mk i Ω T
  have hlong_eq := useCoordinateConversion_long_mk i Ω T
  have hne0 : Real.arccos (Real.cos (degToRad i) * Real.cos (degToRad T) +
      Real.sin (degToRad i) * Real.sin (degToRad T) *
        Real.cos (degToRad Ω)) ≠ 0 := by
    intro h
    apply hmid0
    rw [hincl_eq, h]
    unfold radToDeg
    ring
  have hnepi : Real.arccos (Real.cos (degToRad i) * Real.cos (degToRad T) +
      Real.sin (degToRad i) * Real.sin (degToRad T) *
        Real.cos (degToRad Ω)) ≠ Real.pi := by
    intro h
    apply hmid180
    rw [hincl_eq, h]
    unfold radToDeg
    field_simp
  obtain ⟨h1, h2⟩ := sphericalRoundTrip (degToRad i) (degToRad Ω) (degToRad T)
    ha0 ha1 hb0 hb1 hne0 hnepi
  have e1 : degToRad ((useCoordinateConversion ⟨i, Ω⟩ T).newOrbitalInclination) =
      Real.arccos (Real.cos (degToRad i) * Real.cos (degToRad T) +
        Real.sin (degToRad i) * Real.sin (degToRad T) *
          Real.cos (degToRad Ω)) := by
    rw [hincl_eq, degToRad_radToDeg]
  have e2 : degToRad ((useCoordinateConversion ⟨i, Ω⟩ T).newLongAscendingNode) =
      Complex.arg ⟨Real.sin (degToRad T) * Real.cos (degToRad i) -
        Real.cos (degToRad T) * Real.sin (degToRad i) * Real.cos (degToRad Ω),
        Real.sin (degToRad Ω) * Real.sin (degToRad i)⟩ := by
    rw [hlong_eq, degToRad_radToDeg]
  have hrt_incl : (roundTripConverted ⟨i, Ω⟩ T T).newOrbitalInclination =
      radToDeg (Real.arccos
        (Real.cos (degToRad ((useCoordinateConversion ⟨i, Ω⟩
            T).newOrbitalInclination)) * Real.cos (degToRad T) +
          Real.sin (degToRad ((useCoordinateConversion ⟨i, Ω⟩
            T).newOrbitalInclination)) * Real.sin (degToRad T) *
            Real.cos (degToRad ((useCoordinateConversion ⟨i, Ω⟩
              T).newLongAscendingNode)))) :=
    useCoordinateConversion_incl_mk _ _ _
  have hrt_long : (roundTripConverted ⟨i, Ω⟩ T T).newLongAscendingNode =
      radToDeg (Complex.arg
        ⟨Real.sin (degToRad T) * Real.cos (degToRad ((useCoordinateConversion
            ⟨i, Ω⟩ T).newOrbitalInclination)) -
          Real.cos (degToRad T) * Real.sin (degToRad ((useCoordinateConversion
            ⟨i, Ω⟩ T).newOrbitalInclination)) *
            Real.cos (degToRad ((useCoordinateConversion ⟨i, Ω⟩
              T).newLongAscendingNode)),
          Real.sin (degToRad ((useCoordinateConversion ⟨i, Ω⟩
            T).newLongAscendingNode)) *
            Real.sin (degToRad ((useCoordinateConversion ⟨i, Ω⟩
              T).newOrbitalInclination))⟩) :=
    useCoordinateConversion_long_mk _ _ _
  constructor
  · rw [hrt_incl, e1, e2, h1, radToDeg_degToRad]
  · rw [hrt_long, e1, e2]
    rcases h2 with h | h
    · left
      rw [h, radToDeg_degToRad]
    · right
      rw [h]
      unfold radToDeg degToRad
      field_simp
      ring

/-- Evaluation: converting inclination 90°, node 90° by tilt 30° returns
inclination 90°, node 90° (a fixed point of the conversion). -/
theorem conv_90_90_30 : useCoordinateConversion ⟨90, 90⟩ 30 = ⟨90, 90⟩ := by
  have f1 : (useCoordinateConversion ⟨90, 90⟩ 30).newOrbitalInclination = 90 := by
    rw [useCoordinateConversion_incl_mk,
      show degToRad 90 = Real.pi / 2 from by unfold degToRad; ring,
      show degToRad 30 = Real.pi / 6 from by unfold degToRad; ring,
      Real.cos_pi_div_two, Real.sin_pi_div_two, Real.cos_pi_div_six,
      Real.sin_pi_div_six,
      show (0:ℝ) * (Real.sqrt 3 / 2) + 1 * (1 / 2) * 0 = 0 from by ring,
      Real.arccos_zero]
    unfold radToDeg
    field_simp
    ring
  have f2 : (useCoordinateConversion ⟨90, 90⟩ 30).newLongAscendingNode = 90 := by
    rw [useCoordinateConversion_long_mk,
      show degToRad 90 = Real.pi / 2 from by unfold degToRad; ring,
      show degToRad 30 = Real.pi / 6 from by unfold degToRad; ring,
      Real.cos_pi_div_two, Real.sin_pi_div_two, Real.cos_pi_div_six,
      Real.sin_pi_div_six,
      show (1:ℝ) / 2 * 0 - Real.sqrt 3 / 2 * 1 * 0 = 0 from by ring,
      show (1:ℝ) * 1 = 1 from by ring,
      show (⟨0, 1⟩ : ℂ) = Complex.I from rfl, Complex.arg_I]
    unfold radToDeg
    field_simp
    ring
  rw [show useCoordinateConversion ⟨90, 90⟩ 30 =
      ⟨(useCoordinateConversion ⟨90, 90⟩ 30).newOrbitalInclination,
        (useCoordinateConversion ⟨90, 90⟩ 30).newLongAscendingNode⟩ from rfl,
    f1, f2]

/-- Witness for C1's amended theorem at inclination 90°, node 90°,
tilt 30°. -/
theorem useCoordinateConversion_involution_witness :
    (0:ℝ) < 90 ∧ (90:ℝ) < 180 ∧ (0:ℝ) ≤ 90 ∧ (90:ℝ) < 360 ∧
    (useCoordinateConversion ⟨90, 90⟩ 30).newOrbitalInclination ≠ 0 ∧
    (useCoordinateConversion ⟨90, 90⟩ 30).newOrbitalInclination ≠ 180 ∧
    ((roundTripConverted ⟨90, 90⟩ 30 30).newOrbitalInclination = 90 ∧
      ((roundTripConverted ⟨90, 90⟩ 30 30).newLongAscendingNode = 90 ∨
        (roundTripConverted ⟨90, 90⟩ 30 30).newLongAscendingNode = 90 - 360)) := by
  have hne0 : (useCoordinateConversion ⟨90, 90⟩ 30).newOrbitalInclination ≠ 0 := by
    rw [conv_90_90_30]
    norm_num
  have hne180 : (useCoordinateConversion ⟨90, 90⟩ 30).newOrbitalInclination ≠ 180 := by
    rw [conv_90_90_30]
    norm_num
  exact ⟨by norm_num, by norm_num, by norm_num, by norm_num, hne0, hne180,
    useCoordinateConversion_involution 90 90 30 (by norm_num) (by norm_num)
      (by norm_num) (by norm_num) hne0 hne180⟩
